import Mathlib

/-!
Verification development for the luxe-backend booking and payment
reconciliation service.

The definitions below are a shallow embedding of the JavaScript source:

* `src/routes/webhooks.js` — the Stripe webhook route and its helpers
  `handlePaymentIntentSucceeded`, `handlePaymentIntentFailed`,
  `handlePaymentIntentCanceled`, `createHostPayout`, `awardLoyaltyPoints`;
* `src/config/supabase.js` — the `db` helpers `updateBookingStatus` and
  `checkPropertyAvailability`;
* `src/routes/coupons.js` — the `POST /api/coupons/apply` route;
* the bookings router (`POST /api/bookings`, `POST /api/bookings/:id/cancel`)
  and the users router (`GET /api/users/loyalty`).

Database tables are lists of rows; each Supabase query-builder chain is
translated filter by filter.  `.single()` succeeds exactly when one row
matches.  Monetary amounts are rationals (JavaScript numbers; all payout
arithmetic stays exact on the inputs that occur).  Date-time values are
modelled as integer milliseconds since the epoch, matching the arithmetic
`(checkOut - checkIn) / (1000*60*60*24)` in the bookings route.  String-typed
identifiers (payment-intent ids, coupon codes) are modelled as numeric tokens;
coupon codes are compared after upper-casing in the source, so a token stands
for an upper-cased code.  Database writes that can fail at the storage layer
are driven by an explicit `Oracle` of failure flags, so that the error paths
of the handlers can be exercised.
-/

set_option maxRecDepth 4000

namespace Luxe

/-- Booking status enum: `pending`, `confirmed`, `cancelled`. -/
inductive BookingStatus
  | pending
  | confirmed
  | cancelled
deriving DecidableEq

/-- Payout status: webhook code always inserts `'pending'`. -/
inductive PayoutStatus
  | pendingPayout
deriving DecidableEq

/-- Reason tag on a loyalty transaction (`'booking'` or `'review'`). -/
inductive LoyaltyReason
  | booking
  | review
deriving DecidableEq

/-- A row of the `bookings` table, with the columns the core reads and
writes (`special_requests` is never read back and is omitted). -/
structure Booking where
  id : Nat
  propertyId : Nat
  guestId : Nat
  checkInDate : Nat
  checkOutDate : Nat
  totalPrice : ℚ
  status : BookingStatus
  stripePaymentIntentId : Nat
  guestCount : Nat
deriving DecidableEq

/-- A row of the `properties` table (the columns used by the core:
`host_id`, `price_per_night`, `cleaning_fee`). -/
structure Property where
  id : Nat
  hostId : Nat
  pricePerNight : ℚ
  cleaningFee : ℚ
deriving DecidableEq

/-- A row of the `host_payouts` table as inserted by `createHostPayout`. -/
structure Payout where
  hostId : Nat
  bookingId : Nat
  amount : ℚ
  payoutStatus : PayoutStatus
  tdsDeducted : ℚ
deriving DecidableEq

/-- A row of the `loyalty_transactions` table. -/
structure LoyaltyTxn where
  userId : Nat
  jewelsEarned : ℤ
  jewelsRedeemed : ℤ
  bookingId : Nat
  reason : LoyaltyReason
deriving DecidableEq

/-- A row of the `users` table (only the mutated column `luxe_jewels`). -/
structure UserRow where
  id : Nat
  luxeJewels : ℤ
deriving DecidableEq

/-- The database state touched by the webhook reconciler. -/
structure DB where
  bookings : List Booking
  properties : List Property
  payouts : List Payout
  loyalty : List LoyaltyTxn
  users : List UserRow
deriving DecidableEq

/-- Failure-injection flags for the storage layer: each flag makes the
corresponding write fail (the Supabase call returns an `error`). -/
structure Oracle where
  updateBookingStatusFails : Bool
  payoutInsertFails : Bool
  loyaltyInsertFails : Bool
  userUpdateFails : Bool
deriving DecidableEq

/-- The oracle under which every storage write succeeds. -/
def noFail : Oracle := ⟨false, false, false, false⟩

/-- Supabase `.single()`: returns the row when the result set has exactly
one element, and an error (here `none`) otherwise. -/
def single {α : Type} : List α → Option α
  | [a] => some a
  | _ => none

/-- `db.updateBookingStatus` from `src/config/supabase.js` lines 140-150:
an unconditional `update({ status })` filtered only by `id`, followed by
`.select().single()`; the helper throws on any error (modelled as
`Except.error`).  Note there is no check of the current status. -/
def updateBookingStatus (o : Oracle) (db : DB) (bookingId : Nat)
    (st : BookingStatus) : Except Unit (DB × Booking) :=
  if o.updateBookingStatusFails then .error () else
    let updated := db.bookings.map
      (fun b => if b.id == bookingId then { b with status := st } else b)
    match single (updated.filter (fun b => b.id == bookingId)) with
    | some b => .ok ({ db with bookings := updated }, b)
    | none => .error ()

/-- `createHostPayout` from `src/routes/webhooks.js` lines 180-223: looks up
the property (errors are logged and swallowed), computes
`payoutAmount = total_price * 0.85`, `tdsDeducted = payoutAmount * 0.05`,
`finalPayoutAmount = payoutAmount - tdsDeducted`, and inserts a payout row
(an insert error is logged and swallowed). -/
def createHostPayout (o : Oracle) (db : DB) (booking : Booking) : DB :=
  match single (db.properties.filter (fun p => p.id == booking.propertyId)) with
  | none => db
  | some property =>
    let payoutAmount : ℚ := booking.totalPrice * (85 / 100)
    let tdsDeducted : ℚ := payoutAmount * (5 / 100)
    let finalPayoutAmount : ℚ := payoutAmount - tdsDeducted
    if o.payoutInsertFails then db
    else { db with payouts := db.payouts ++
            [⟨property.hostId, booking.id, finalPayoutAmount,
              .pendingPayout, tdsDeducted⟩] }

/-- `awardLoyaltyPoints` from `src/routes/webhooks.js` lines 228-279:
re-reads the booking's `total_price` (missing booking is logged and
swallowed), computes `Math.floor(total_price / 100)` points, inserts a
loyalty transaction (insert error swallowed), then additionally updates the
user's `luxe_jewels` counter by the same amount (update error swallowed).
The source builds the increment with `db.supabase.raw('luxe_jewels + ?')`;
the expression is modelled as the intended addition. -/
def awardLoyaltyPoints (o : Oracle) (db : DB) (userId bookingId : Nat)
    (reason : LoyaltyReason) : DB :=
  match single (db.bookings.filter (fun b => b.id == bookingId)) with
  | none => db
  | some booking =>
    let pointsEarned : ℤ := Int.floor (booking.totalPrice / 100)
    if o.loyaltyInsertFails then db
    else
      let db1 := { db with loyalty := db.loyalty ++
                    [⟨userId, pointsEarned, 0, bookingId, reason⟩] }
      if o.userUpdateFails then db1
      else
        let users1 := db1.users.map (fun u =>
          if u.id == userId
            then { u with luxeJewels := u.luxeJewels + pointsEarned }
            else u)
        { db1 with users := users1 }

/-- `handlePaymentIntentSucceeded` from `src/routes/webhooks.js` lines
82-115: finds the booking by `stripe_payment_intent_id` via `.single()`
(a lookup failure is logged and the handler returns without effect), sets
the status to `confirmed` through `db.updateBookingStatus`, then runs
`createHostPayout` and `awardLoyaltyPoints`.  A thrown error (here: only
`updateBookingStatus` can throw) is re-thrown to the route; the boolean
result records whether the handler threw. -/
def handlePaymentIntentSucceeded (o : Oracle) (db : DB) (piId : Nat) :
    DB × Bool :=
  match single (db.bookings.filter (fun b => b.stripePaymentIntentId == piId)) with
  | none => (db, false)
  | some booking =>
    match updateBookingStatus o db booking.id .confirmed with
    | .error _ => (db, true)
    | .ok (db1, _) =>
      let db2 := createHostPayout o db1 booking
      let db3 := awardLoyaltyPoints o db2 booking.guestId booking.id .booking
      (db3, false)

/-- `handlePaymentIntentFailed` from `src/routes/webhooks.js` lines
120-145: same booking lookup, then an unconditional status write to
`cancelled`. -/
def handlePaymentIntentFailed (o : Oracle) (db : DB) (piId : Nat) :
    DB × Bool :=
  match single (db.bookings.filter (fun b => b.stripePaymentIntentId == piId)) with
  | none => (db, false)
  | some booking =>
    match updateBookingStatus o db booking.id .cancelled with
    | .error _ => (db, true)
    | .ok (db1, _) => (db1, false)

/-- `handlePaymentIntentCanceled` from `src/routes/webhooks.js` lines
150-175: identical to the failed-payment handler. -/
def handlePaymentIntentCanceled (o : Oracle) (db : DB) (piId : Nat) :
    DB × Bool :=
  match single (db.bookings.filter (fun b => b.stripePaymentIntentId == piId)) with
  | none => (db, false)
  | some booking =>
    match updateBookingStatus o db booking.id .cancelled with
    | .error _ => (db, true)
    | .ok (db1, _) => (db1, false)

/-- Stripe event types dispatched by the route switch. -/
inductive EventType
  | paymentIntentSucceeded
  | paymentIntentFailed
  | paymentIntentCanceled
  | other
deriving DecidableEq

/-- A webhook delivery after transport: whether its signature verifies
against the endpoint secret, its type, and the payment-intent id carried in
`event.data.object.id`. -/
structure Event where
  sigValid : Bool
  type : EventType
  piId : Nat
deriving DecidableEq

/-- HTTP outcome of the webhook route, as seen by the gateway. -/
inductive HttpResult
  | ok
  | badSignature
  | serverError
deriving DecidableEq

/-- The `POST /api/webhooks/stripe` route from `src/routes/webhooks.js`
lines 13-77, with the endpoint secret configured and structurally valid
events: signature verification failure returns a 400; otherwise the event
type is dispatched, an exception from a handler reaches `next(error)`
(a server error response), and on normal return the route answers
`{ received: true }`.  Unrecognized event types are acknowledged no-ops. -/
def ingestStripeEvent (o : Oracle) (db : DB) (ev : Event) : DB × HttpResult :=
  if ev.sigValid = false then (db, .badSignature)
  else
    match ev.type with
    | .paymentIntentSucceeded =>
      let r := handlePaymentIntentSucceeded o db ev.piId
      (r.1, if r.2 then .serverError else .ok)
    | .paymentIntentFailed =>
      let r := handlePaymentIntentFailed o db ev.piId
      (r.1, if r.2 then .serverError else .ok)
    | .paymentIntentCanceled =>
      let r := handlePaymentIntentCanceled o db ev.piId
      (r.1, if r.2 then .serverError else .ok)
    | .other => (db, .ok)

/-- Repeated delivery of the same event, ingested `n` times in sequence. -/
def ingestN (o : Oracle) (ev : Event) : Nat → DB → DB
  | 0, db => db
  | n + 1, db => ingestN o ev n (ingestStripeEvent o db ev).1

/-- Outcome of the guest-cancel route `POST /api/bookings/:id/cancel`. -/
inductive CancelResult
  | notFound
  | invalidStatus
  | cancelledOk
  | serverError
deriving DecidableEq

/-- The guest-cancel route from the bookings router: look up the booking by
`id` and `guest_id` via two chained `.eq` filters and `.single()` (missing
row is a 404), reject with `InvalidStatusError` unless the status is
`pending`, otherwise write `cancelled` through `db.updateBookingStatus`. -/
def cancelBookingRoute (o : Oracle) (db : DB) (userId bookingId : Nat) :
    DB × CancelResult :=
  match single ((db.bookings.filter (fun b => b.id == bookingId)).filter
      (fun b => b.guestId == userId)) with
  | none => (db, .notFound)
  | some booking =>
    if booking.status == .pending then
      match updateBookingStatus o db bookingId .cancelled with
      | .error _ => (db, .serverError)
      | .ok (db1, _) => (db1, .cancelledOk)
    else (db, .invalidStatus)

/-- The `priceBreakdown` object returned by `POST /api/bookings`. -/
structure PriceBreakdown where
  nights : ℤ
  basePrice : ℚ
  cleaningFee : ℚ
  totalPrice : ℚ
deriving DecidableEq

/-- Price computation of the bookings router (step 3 of `POST /api/bookings`):
`nights = Math.ceil((checkOut - checkIn) / (1000*60*60*24))` on
millisecond-since-epoch timestamps, `basePrice = price_per_night * nights`,
`cleaningFee = property.cleaning_fee || 0` (the `|| 0` default is absorbed
into the rational field), `totalPrice = basePrice + cleaningFee`. -/
def quoteBooking (pricePerNight cleaningFee : ℚ) (checkInMs checkOutMs : Nat) :
    PriceBreakdown :=
  let nights : ℤ := Int.ceil (((checkOutMs : ℚ) - (checkInMs : ℚ)) / 86400000)
  let basePrice : ℚ := pricePerNight * (nights : ℚ)
  { nights := nights, basePrice := basePrice, cleaningFee := cleaningFee,
    totalPrice := basePrice + cleaningFee }

/-- The `bookingData` row inserted by step 5 of `POST /api/bookings`:
status `pending`, the Stripe payment-intent id recorded on the row. -/
def mkBookingRow (bookingId propertyId guestId checkInMs checkOutMs : Nat)
    (totalPrice : ℚ) (piId guestCount : Nat) : Booking :=
  { id := bookingId, propertyId := propertyId, guestId := guestId,
    checkInDate := checkInMs, checkOutDate := checkOutMs,
    totalPrice := totalPrice, status := .pending,
    stripePaymentIntentId := piId, guestCount := guestCount }

/-!
## Availability query

`db.checkPropertyAvailability` (`src/config/supabase.js` lines 153-166)
issues the chain

```
.eq('property_id', propertyId)
.or('status.eq.confirmed,status.eq.pending')
.overlaps('check_in_date', checkInDate, checkOutDate)
.or('check_out_date.overlaps', checkInDate, checkOutDate)
```

The first two filters are well-formed.  The third maps to the PostgREST
operator `ov` (SQL `&&`), which does not exist for the scalar `date` column
`check_in_date`, so PostgreSQL rejects the query (error 42883); the fourth
passes the malformed condition string `check_out_date.overlaps` (no
operator value, and `overlaps` is not a PostgREST operator name), which
PostgREST rejects when parsing.  Either way the query returns an error
independent of the table contents, and the helper throws.  Filters are
modelled as data and compiled to row predicates; the two broken filters
fail to compile. -/

/-- Error kinds produced by the availability query. -/
inductive QueryErr
  | opDoesNotExist
  | badFilterString
deriving DecidableEq

/-- The four filters of the availability query, in chain order. -/
inductive AvailFilter
  | eqPropertyId (propertyId : Nat)
  | orStatusConfirmedPending
  | overlapsCheckInDate (v w : Nat)
  | orRawCheckOutOverlaps (v w : Nat)
deriving DecidableEq

/-- Compile one filter to a row predicate, or fail the query. -/
def compileAvailFilter : AvailFilter → Except QueryErr (Booking → Bool)
  | .eqPropertyId pid => .ok (fun b => b.propertyId == pid)
  | .orStatusConfirmedPending =>
      .ok (fun b => b.status == .confirmed || b.status == .pending)
  | .overlapsCheckInDate _ _ => .error .opDoesNotExist
  | .orRawCheckOutOverlaps _ _ => .error .badFilterString

/-- Run a filter chain over the current rows; the whole query fails as soon
as a filter does not compile. -/
def runAvailQuery (rows : List Booking) : List AvailFilter →
    Except QueryErr (List Booking)
  | [] => .ok rows
  | f :: fs =>
    match compileAvailFilter f with
    | .error e => .error e
    | .ok p => runAvailQuery (rows.filter p) fs

/-- `db.checkPropertyAvailability`: runs the four-filter query over the
`bookings` table and returns `data.length === 0`; a query error makes the
helper throw (`Except.error`).  `checkInMs`/`checkOutMs` are the requested
range. -/
def checkPropertyAvailability (db : DB) (propertyId checkInMs checkOutMs : Nat) :
    Except QueryErr Bool :=
  match runAvailQuery db.bookings
      [.eqPropertyId propertyId, .orStatusConfirmedPending,
       .overlapsCheckInDate checkInMs checkOutMs,
       .orRawCheckOutOverlaps checkInMs checkOutMs] with
  | .error e => .error e
  | .ok rows => .ok (rows.length == 0)

/-- The availability predicate stated by the specification (for comparison
with the implementation): some booking for the property in status `pending`
or `confirmed` satisfies `existing.checkIn < new.checkOut` and
`existing.checkOut > new.checkIn`; availability is the negation. -/
def specIsAvailable (db : DB) (propertyId checkInMs checkOutMs : Nat) : Bool :=
  !(db.bookings.any (fun b =>
    b.propertyId == propertyId &&
    (b.status == .pending || b.status == .confirmed) &&
    (decide (b.checkInDate < checkOutMs) && decide (checkInMs < b.checkOutDate))))

/-!
## Loyalty balance endpoint

`GET /api/users/loyalty` (users router) selects the user's loyalty
transactions ordered by `created_at` descending with `.limit(10)`, then
reduces `jewels_earned - jewels_redeemed` over the returned rows.  The
`loyalty` list is append-only, so descending creation order is the reverse
of the list. -/

/-- `totalJewels` as computed by the route: the reduce runs over at most the
10 most recent transactions. -/
def getLoyaltyTotal (db : DB) (userId : Nat) : ℤ :=
  let transactions :=
    ((db.loyalty.filter (fun t => t.userId == userId)).reverse).take 10
  transactions.foldl (fun sum t => sum + (t.jewelsEarned - t.jewelsRedeemed)) 0

/-- The balance stated by the specification (for comparison): the running
sum of `jewels_earned - jewels_redeemed` over the user's entire ledger. -/
def ledgerBalance (db : DB) (userId : Nat) : ℤ :=
  ((db.loyalty.filter (fun t => t.userId == userId)).map
    (fun t => t.jewelsEarned - t.jewelsRedeemed)).sum

/-!
## Coupon redemption (`POST /api/coupons/apply`, src/routes/coupons.js)

The route reads the coupon (by upper-cased code, active flag and
`validUntil >= now`), the booking (by id, owner and `pending` status), the
coupon's usage counters and the user's prior redemption, computes the
discount, and only then writes: it inserts a redemption row, updates the
coupon's counters from the values read earlier, and updates the booking.
The read phase and the write phase are modelled separately so that
interleavings of two concurrent requests can be expressed; a sequential
request is the composition of the two phases. -/

/-- Coupon kind: `'percentage'` or fixed amount. -/
inductive CouponType
  | percentage
  | fixed
deriving DecidableEq

/-- A row of the `coupons` table.  `code` is a token standing for the
upper-cased coupon code.  `maxUses = 0` and `minBookingValue = 0` model the
absent (`null`) column: JavaScript guards both checks with truthiness
(`coupon.maxUses && ...`), so `0`/`null` disables the check. -/
structure Coupon where
  id : Nat
  code : Nat
  isActive : Bool
  validFrom : Nat
  validUntil : Nat
  couponType : CouponType
  discountValue : Nat
  maxUses : Nat
  totalUses : Nat
  totalDiscount : ℤ
  minBookingValue : Nat
deriving DecidableEq

/-- The booking columns read and written by the coupon route.  The route
reads `booking.totalPriceInCents` and writes `discountInCents` and
`finalPayoutInCents`. -/
structure CouponBooking where
  id : Nat
  guestId : Nat
  status : BookingStatus
  totalPriceInCents : Nat
  discountInCents : ℤ
  finalPayoutInCents : ℤ
deriving DecidableEq

/-- A row of the `coupon_redemptions` table. -/
structure Redemption where
  userId : Nat
  couponId : Nat
  discountAmount : ℤ
deriving DecidableEq

/-- The database state touched by the coupon route. -/
structure CouponDB where
  coupons : List Coupon
  cbookings : List CouponBooking
  redemptions : List Redemption
deriving DecidableEq

/-- JavaScript `Math.round`: round half toward positive infinity,
`Math.round(x) = Math.floor(x + 0.5)`. -/
def jsRound (q : ℚ) : ℤ := Int.floor (q + 1 / 2)

/-- Discount computation from src/routes/coupons.js lines 168-177:
percentage coupons take `Math.round(totalPriceInCents * discountValue/100)`,
fixed coupons take `Math.round(discountValue * 100)` (conversion to cents);
the result is capped at `booking.totalPriceInCents`. -/
def computeDiscount (c : Coupon) (totalPriceInCents : Nat) : ℤ :=
  let raw : ℤ :=
    match c.couponType with
    | .percentage =>
        jsRound ((totalPriceInCents : ℚ) * ((c.discountValue : ℚ) / 100))
    | .fixed => jsRound ((c.discountValue : ℚ) * 100)
  min raw (totalPriceInCents : ℤ)

/-- Outcome of the coupon-apply route, one constructor per machine-readable
error code (`NotFoundError` for a missing/inactive/expired coupon,
`NotFoundError` for a missing/ineligible booking, `CouponExhaustedError`,
`DuplicateCouponError`, `MinimumValueError`), plus the success payload and
the generic 500 path (a thrown storage error). -/
inductive ApplyOutcome
  | couponNotFound
  | bookingNotFound
  | couponExhausted
  | duplicateCoupon
  | minimumValue
  | applied (discountApplied : ℤ) (newTotal : ℤ)
  | serverErr
deriving DecidableEq

/-- Snapshot of the rows a request has read before it writes. -/
structure ApplySnapshot where
  coupon : Coupon
  booking : CouponBooking
  discount : ℤ
deriving DecidableEq

/-- Read phase of the route (lines 92-177): coupon lookup through chained
filters `.eq('code', ...).eq('isActive', true).gte('validUntil', now)` and
`.single()`; booking lookup through `.eq('id').eq('guest_id')
.eq('status','pending')` and `.single()`; then the usage-cap check, the
prior-redemption check (a `.single()` whose no-row error code `PGRST116` is
tolerated, one row is a duplicate rejection, several rows throw), and the
minimum-value check.  `validFrom` is never consulted. -/
def couponApplyReads (now : Nat) (db : CouponDB) (userId code bookingId : Nat) :
    Except ApplyOutcome ApplySnapshot :=
  match single (((db.coupons.filter (fun c => c.code == code)).filter
      (fun c => c.isActive)).filter (fun c => decide (now ≤ c.validUntil))) with
  | none => .error .couponNotFound
  | some coupon =>
    match single (((db.cbookings.filter (fun b => b.id == bookingId)).filter
        (fun b => b.guestId == userId)).filter
        (fun b => b.status == .pending)) with
    | none => .error .bookingNotFound
    | some booking =>
      if coupon.maxUses != 0 && decide (coupon.maxUses ≤ coupon.totalUses) then
        .error .couponExhausted
      else
        match (db.redemptions.filter (fun r => r.couponId == coupon.id)).filter
            (fun r => r.userId == userId) with
        | _ :: _ :: _ => .error .serverErr
        | [_] => .error .duplicateCoupon
        | [] =>
          if coupon.minBookingValue != 0 &&
              decide (booking.totalPriceInCents < coupon.minBookingValue) then
            .error .minimumValue
          else
            .ok ⟨coupon, booking, computeDiscount coupon booking.totalPriceInCents⟩

/-- Write phase of the route (lines 179-228): insert the redemption row,
update the coupon counters using the values of the snapshot
(`totalUses: (coupon.totalUses || 0) + 1`), update the booking's discount
and final total, and answer with the discount and the booking's new
`finalPayoutInCents`. -/
def couponApplyWrites (db : CouponDB) (userId : Nat) (s : ApplySnapshot) :
    CouponDB × ApplyOutcome :=
  let redemptions1 := db.redemptions ++ [⟨userId, s.coupon.id, s.discount⟩]
  let db1 := { db with redemptions := redemptions1 }
  let coupons1 := db1.coupons.map (fun c =>
    if c.id == s.coupon.id
      then { c with totalUses := s.coupon.totalUses + 1,
                    totalDiscount := s.coupon.totalDiscount + s.discount }
      else c)
  let db2 := { db1 with coupons := coupons1 }
  let newTotal : ℤ := (s.booking.totalPriceInCents : ℤ) - s.discount
  let cbookings1 := db2.cbookings.map (fun b =>
    if b.id == s.booking.id
      then { b with discountInCents := s.discount,
                    finalPayoutInCents := newTotal }
      else b)
  ({ db2 with cbookings := cbookings1 }, .applied s.discount newTotal)

/-- A whole request run on its own: reads followed by writes. -/
def applyCoupon (now : Nat) (db : CouponDB) (userId code bookingId : Nat) :
    CouponDB × ApplyOutcome :=
  match couponApplyReads now db userId code bookingId with
  | .error out => (db, out)
  | .ok s => couponApplyWrites db userId s

/-- Two concurrent requests under the interleaving in which both read
phases complete against the initial state before either write phase runs
(the lost-update schedule).  Requests whose read phase rejects perform no
writes. -/
def applyTwoInterleaved (now : Nat) (db : CouponDB)
    (user1 booking1 user2 booking2 code : Nat) :
    CouponDB × ApplyOutcome × ApplyOutcome :=
  match couponApplyReads now db user1 code booking1,
        couponApplyReads now db user2 code booking2 with
  | .error o1, .error o2 => (db, o1, o2)
  | .ok s1, .error o2 =>
    let r1 := couponApplyWrites db user1 s1
    (r1.1, r1.2, o2)
  | .error o1, .ok s2 =>
    let r2 := couponApplyWrites db user2 s2
    (r2.1, o1, r2.2)
  | .ok s1, .ok s2 =>
    let r1 := couponApplyWrites db user1 s1
    let r2 := couponApplyWrites r1.1 user2 s2
    (r2.1, r1.2, r2.2)

/-- The ordered eligibility ladder exactly as the specification words it
(for comparison with the implementation): find the coupon by code, then
(1) active and within the validity window — including `validFrom`, (2)
global usage below the cap, (3) no prior redemption by this user, (4)
booking total meets the minimum value; the first failing check determines
the outcome. -/
def specApplyOutcome (now : Nat) (db : CouponDB) (userId code bookingId : Nat) :
    ApplyOutcome :=
  match single (db.coupons.filter (fun c => c.code == code)) with
  | none => .couponNotFound
  | some coupon =>
    if !(coupon.isActive && decide (coupon.validFrom ≤ now) &&
        decide (now ≤ coupon.validUntil)) then .couponNotFound
    else
      match single (((db.cbookings.filter (fun b => b.id == bookingId)).filter
          (fun b => b.guestId == userId)).filter
          (fun b => b.status == .pending)) with
      | none => .bookingNotFound
      | some booking =>
        if coupon.maxUses != 0 && decide (coupon.maxUses ≤ coupon.totalUses) then
          .couponExhausted
        else if !((db.redemptions.filter (fun r => r.couponId == coupon.id)).filter
            (fun r => r.userId == userId)).isEmpty then .duplicateCoupon
        else if coupon.minBookingValue != 0 &&
            decide (booking.totalPriceInCents < coupon.minBookingValue) then
          .minimumValue
        else
          .applied (computeDiscount coupon booking.totalPriceInCents)
            ((booking.totalPriceInCents : ℤ) -
              computeDiscount coupon booking.totalPriceInCents)

/-- The validation ladder with the window check weakened to what the route
actually queries — coupon active and not yet expired (`validUntil >= now`),
`validFrom` unchecked — given the coupon row `c` that carries the requested
code.  This is the amended reading of the specification's ordered checks. -/
def codeApplyLadder (now : Nat) (db : CouponDB) (c : Coupon)
    (userId bookingId : Nat) : ApplyOutcome :=
  if !(c.isActive && decide (now ≤ c.validUntil)) then .couponNotFound
  else
    match single (((db.cbookings.filter (fun b => b.id == bookingId)).filter
        (fun b => b.guestId == userId)).filter
        (fun b => b.status == .pending)) with
    | none => .bookingNotFound
    | some booking =>
      if c.maxUses != 0 && decide (c.maxUses ≤ c.totalUses) then
        .couponExhausted
      else
        match (db.redemptions.filter (fun r => r.couponId == c.id)).filter
            (fun r => r.userId == userId) with
        | _ :: _ :: _ => .serverErr
        | [_] => .duplicateCoupon
        | [] =>
          if c.minBookingValue != 0 &&
              decide (booking.totalPriceInCents < c.minBookingValue) then
            .minimumValue
          else
            .applied (computeDiscount c booking.totalPriceInCents)
              ((booking.totalPriceInCents : ℤ) -
                computeDiscount c booking.totalPriceInCents)

/-!
## Helper lemmas
-/

/-- `.single()` succeeds with `a` exactly when the result set is `[a]`. -/
lemma single_eq_some_iff {α : Type} (l : List α) (a : α) :
    single l = some a ↔ l = [a] := by
  cases l with
  | nil => simp [single]
  | cons x t =>
    cases t with
    | nil => simp [single]
    | cons y u => simp [single]

/-- A row returned alone by a filter belongs to the table. -/
lemma mem_of_filter_eq_singleton {α : Type} {l : List α} {p : α → Bool}
    {a : α} (h : l.filter p = [a]) : a ∈ l := by
  have ha : a ∈ l.filter p := by
    rw [h]; exact List.mem_singleton_self a
  exact (List.mem_filter.mp ha).1

/-- Updating the row with key `b.id` through a keyed `update ... eq id` and
re-selecting by the same key returns exactly the updated row, provided the
table's ids are distinct and the update preserves the id column. -/
lemma filter_map_update (l : List Booking) (g : Booking → Booking)
    (hg : ∀ x, (g x).id = x.id) (b : Booking) (hb : b ∈ l)
    (hnd : (l.map (fun x => x.id)).Nodup) :
    (l.map (fun x => if x.id == b.id then g x else x)).filter
      (fun x => x.id == b.id) = [g b] := by
  induction l with
  | nil => cases hb
  | cons a t ih =>
    rw [List.map_cons, List.nodup_cons] at hnd
    obtain ⟨ha, hndt⟩ := hnd
    rcases List.mem_cons.mp hb with rfl | hbt
    · have h2 : ((g b).id == b.id) = true := by simp [hg b]
      have h3 : (t.map (fun x => if x.id == b.id then g x else x)).filter
          (fun x => x.id == b.id) = [] := by
        rw [List.filter_eq_nil_iff]
        intro y hy
        obtain ⟨x, hx, rfl⟩ := List.mem_map.mp hy
        by_cases hxa : x.id = b.id
        · exact absurd (List.mem_map.mpr ⟨x, hx, hxa⟩) ha
        · simp [hxa]
      simp only [List.map_cons, List.filter_cons, beq_self_eq_true, if_true,
        h2, h3]
    · have hab : ¬ (a.id = b.id) := by
        intro h
        exact ha (List.mem_map.mpr ⟨b, hbt, h.symm⟩)
      have h1 : (a.id == b.id) = false := by
        simp [hab]
      simp only [List.map_cons, List.filter_cons, h1, Bool.false_eq_true,
        if_false]
      exact ih hbt hndt

/-- The `bookings` table after the keyed status write of
`db.updateBookingStatus`. -/
def setStatusKeyed (db : DB) (bookingId : Nat) (st : BookingStatus) :
    List Booking :=
  db.bookings.map
    (fun x => if x.id == bookingId then { x with status := st } else x)

/-- A successful keyed status update: the helper returns the table with the
row rewritten and the rewritten row itself. -/
lemma updateBookingStatus_ok (o : Oracle) (db : DB) (b : Booking)
    (st : BookingStatus) (ho : o.updateBookingStatusFails = false)
    (hb : b ∈ db.bookings) (hnd : (db.bookings.map (fun x => x.id)).Nodup) :
    updateBookingStatus o db b.id st =
      .ok ({ db with bookings := setStatusKeyed db b.id st },
           { b with status := st }) := by
  unfold updateBookingStatus setStatusKeyed
  rw [ho]
  simp only [Bool.false_eq_true, if_false]
  rw [filter_map_update db.bookings (fun x => { x with status := st })
    (fun _ => rfl) b hb hnd]
  rfl

/-- `createHostPayout` never touches the `bookings` table. -/
lemma createHostPayout_bookings (o : Oracle) (db : DB) (booking : Booking) :
    (createHostPayout o db booking).bookings = db.bookings := by
  unfold createHostPayout
  split
  · rfl
  · split <;> rfl

/-- `awardLoyaltyPoints` never touches the `bookings` table. -/
lemma awardLoyaltyPoints_bookings (o : Oracle) (db : DB)
    (userId bookingId : Nat) (reason : LoyaltyReason) :
    (awardLoyaltyPoints o db userId bookingId reason).bookings = db.bookings := by
  unfold awardLoyaltyPoints
  split
  · rfl
  · split
    · rfl
    · split <;> rfl

/-!
## Concrete scenario

The end-to-end scenario of the specification: a 3-night booking (check-in at
epoch millisecond 0, check-out 3 days = 259200000 ms later) on a property
with nightly rate 15000 and cleaning fee 2000, quoted by the bookings route
and stored as the pending booking row with payment-intent token 500, guest
20, host 7. -/

/-- The booking row created by `POST /api/bookings` for the scenario, with
its status left as a parameter so that states later in the lifecycle can be
described by the same family. -/
def demoBooking (st : BookingStatus) : Booking :=
  { mkBookingRow 1 10 20 0 259200000
      (quoteBooking 15000 2000 0 259200000).totalPrice 500 2 with status := st }

/-- The scenario property: host 7, rate 15000, cleaning fee 2000. -/
def demoProperty : Property := ⟨10, 7, 15000, 2000⟩

/-- The scenario database, parameterized by the booking's status, the
payout and loyalty tables and the guest's `luxe_jewels` counter. -/
def demoDB (st : BookingStatus) (ps : List Payout) (ls : List LoyaltyTxn)
    (j : ℤ) : DB :=
  ⟨[demoBooking st], [demoProperty], ps, ls, [⟨20, j⟩]⟩

/-- A correctly signed `payment_intent.succeeded` delivery for the
scenario's payment intent. -/
def evSucc : Event := ⟨true, .paymentIntentSucceeded, 500⟩

/-- Gross host payout of the scenario booking: `total_price * 0.85`. -/
def demoGross : ℚ := (demoBooking .pending).totalPrice * (85 / 100)

/-- Tax withheld on the scenario payout: `payoutAmount * 0.05`. -/
def demoTds : ℚ := demoGross * (5 / 100)

/-- The payout row inserted by `createHostPayout` for the scenario. -/
def demoPayout : Payout := ⟨7, 1, demoGross - demoTds, .pendingPayout, demoTds⟩

/-- Loyalty points accrued for the scenario booking:
`Math.floor(total_price / 100)`. -/
def demoPoints : ℤ := Int.floor ((demoBooking .pending).totalPrice / 100)

/-- The loyalty transaction inserted by `awardLoyaltyPoints` for the
scenario. -/
def demoTxn : LoyaltyTxn := ⟨20, demoPoints, 0, 1, .booking⟩

/-- The scenario's quoted totals: 3 nights, base price `15000 * 3 = 45000`,
total `45000 + 2000 = 47000`, loyalty accrual `floor(47000/100) = 470`. -/
lemma demo_amounts :
    quoteBooking 15000 2000 0 259200000 =
      { nights := 3, basePrice := 45000, cleaningFee := 2000,
        totalPrice := 47000 } ∧
    demoPoints = 470 := by
  constructor
  · unfold quoteBooking
    norm_num
  · unfold demoPoints demoBooking mkBookingRow quoteBooking
    norm_num

/-- One delivery of the scenario's payment-success event, from any booking
status and any payout/loyalty/counter contents: the status is overwritten
to `confirmed`, one payout row and one loyalty transaction are appended,
and the user counter grows by the accrued points.  No part of the state
blocks the re-application of the side effects. -/
lemma ingest_demo_step (st : BookingStatus) (ps : List Payout)
    (ls : List LoyaltyTxn) (j : ℤ) :
    ingestStripeEvent noFail (demoDB st ps ls j) evSucc =
      (demoDB .confirmed (ps ++ [demoPayout]) (ls ++ [demoTxn])
        (j + demoPoints), .ok) := rfl

/-- Ingesting the scenario's payment-success event `n + 1` times: the
booking ends `confirmed`, and one payout row, one loyalty transaction and
one counter increment are appended per delivery. -/
lemma ingestN_demo (n : Nat) (st : BookingStatus) (ps : List Payout)
    (ls : List LoyaltyTxn) (j : ℤ) :
    ingestN noFail evSucc (n + 1) (demoDB st ps ls j) =
      demoDB .confirmed (ps ++ List.replicate (n + 1) demoPayout)
        (ls ++ List.replicate (n + 1) demoTxn)
        (j + ((n : ℤ) + 1) * demoPoints) := by
  induction n generalizing st ps ls j with
  | zero =>
    simp only [ingestN, ingest_demo_step]
    simp [List.replicate_succ]
  | succ k ih =>
    have hstep : ingestN noFail evSucc (k + 1 + 1) (demoDB st ps ls j) =
        ingestN noFail evSucc (k + 1)
          (ingestStripeEvent noFail (demoDB st ps ls j) evSucc).1 := rfl
    rw [hstep, ingest_demo_step, ih]
    have harith : j + demoPoints + ((k : ℤ) + 1) * demoPoints =
        j + ((k : ℤ) + 1 + 1) * demoPoints := by ring
    simp only [demoDB, DB.mk.injEq, List.append_assoc, List.singleton_append,
      ← List.replicate_succ, List.cons.injEq, harith]
    push_cast
    simp

/-!
## Claim C1 — webhook idempotence
-/

/-- C1, counterexample.  Delivering the same `payment_intent.succeeded`
event twice for the scenario's pending booking does not create exactly one
payout and one loyalty transaction: both tables receive two rows, because
`src/routes/webhooks.js` keeps no processed-event log and re-runs every
side effect on redelivery. -/
theorem c1_redelivery_counterexample :
    ¬ ((ingestN noFail evSucc 2 (demoDB .pending [] [] 0)).payouts.length = 1 ∧
       (ingestN noFail evSucc 2 (demoDB .pending [] [] 0)).loyalty.length = 1) := by
  have h := ingestN_demo 1 .pending [] [] 0
  rw [show (2 : Nat) = 1 + 1 from rfl, h]
  simp [demoDB]

/-- C1, amended.  The handler deduplicates nothing: each delivery of the
payment-success event re-applies the side effects.  After `n + 1`
deliveries the booking is `confirmed` (the status write is idempotent in
value only) and there are `n + 1` payout rows and `n + 1` loyalty
transactions — not one of each. -/
theorem c1_redelivery_replays_side_effects (n : Nat) :
    (ingestN noFail evSucc (n + 1) (demoDB .pending [] [] 0)).payouts.length
        = n + 1 ∧
    (ingestN noFail evSucc (n + 1) (demoDB .pending [] [] 0)).loyalty.length
        = n + 1 ∧
    (ingestN noFail evSucc (n + 1) (demoDB .pending [] [] 0)).bookings.map
        (fun b => b.status) = [.confirmed] := by
  rw [ingestN_demo n .pending [] [] 0]
  refine ⟨by simp [demoDB], by simp [demoDB], ?_⟩
  simp [demoDB, demoBooking, mkBookingRow]

/-!
## Claim C9 — end-to-end scenario
-/

/-- C9.  The 3-night scenario at nightly rate 15000 with cleaning fee 2000:
the route's quote yields `nights = 3`, `basePrice = 45000`,
`total = 47000`; ingesting the payment-success webhook for the booking's
payment-intent reference answers success, sets the booking `confirmed`,
inserts the payout with `grossPayout = total * 0.85` net of withholding
(`withheld = grossPayout * 0.05`, `amount = grossPayout - withheld`), and
inserts a loyalty transaction of `floor(47000 / 100) = 470` points. -/
theorem c9_end_to_end :
    quoteBooking 15000 2000 0 259200000 =
      { nights := 3, basePrice := 45000, cleaningFee := 2000,
        totalPrice := 47000 } ∧
    (demoBooking .pending).totalPrice = 47000 ∧
    (ingestStripeEvent noFail (demoDB .pending [] [] 0) evSucc).2 = .ok ∧
    (ingestStripeEvent noFail (demoDB .pending [] [] 0) evSucc).1.bookings.map
        (fun b => b.status) = [.confirmed] ∧
    (ingestStripeEvent noFail (demoDB .pending [] [] 0) evSucc).1.payouts =
      [⟨7, 1, demoGross - demoTds, .pendingPayout, demoTds⟩] ∧
    demoGross = (demoBooking .pending).totalPrice * (85 / 100) ∧
    demoTds = demoGross * (5 / 100) ∧
    Int.floor ((47000 : ℚ) / 100) = 470 ∧
    (ingestStripeEvent noFail (demoDB .pending [] [] 0) evSucc).1.loyalty =
      [⟨20, 470, 0, 1, .booking⟩] := by
  obtain ⟨hq, hpts⟩ := demo_amounts
  refine ⟨hq, ?_, ?_, ?_, ?_, rfl, rfl, by norm_num, ?_⟩
  · show (quoteBooking 15000 2000 0 259200000).totalPrice = 47000
    rw [hq]
  · rw [ingest_demo_step]
  · rw [ingest_demo_step]
    simp [demoDB, demoBooking, mkBookingRow]
  · rw [ingest_demo_step]
    simp [demoDB, demoPayout]
  · rw [ingest_demo_step]
    simp [demoDB, demoTxn, hpts]

/-!
## Claim C2 — terminal-state monotonicity
-/

/-- C2, counterexample.  With the scenario booking already `cancelled`, one
payment-success delivery silently flips it to `confirmed` and the endpoint
acknowledges success; no anomaly is reported and the status does not stay
`cancelled` (`db.updateBookingStatus` writes unconditionally and the
codebase has no `ReconciliationAnomaly` path). -/
theorem c2_cancelled_flip_counterexample :
    (ingestStripeEvent noFail (demoDB .cancelled [] [] 0) evSucc).1.bookings.map
        (fun b => b.status) = [.confirmed] ∧
    (ingestStripeEvent noFail (demoDB .cancelled [] [] 0) evSucc).2 = .ok := by
  rw [ingest_demo_step]
  exact ⟨by simp [demoDB, demoBooking, mkBookingRow], rfl⟩

/-- C2, amended.  A payment-success event for a `cancelled` booking
silently rewrites the row to `confirmed` and is acknowledged with success —
there is no reported anomaly; only the guest-cancel endpoint reports a
conflict (`InvalidStatusError`) when the booking is already `confirmed`,
leaving the state unchanged. -/
theorem c2_amended :
    (∀ (db : DB) (piId : Nat) (b : Booking),
      db.bookings.filter (fun x => x.stripePaymentIntentId == piId) = [b] →
      (db.bookings.map (fun x => x.id)).Nodup →
      b.status = .cancelled →
      (ingestStripeEvent noFail db
          ⟨true, .paymentIntentSucceeded, piId⟩).1.bookings.filter
          (fun x => x.id == b.id) =
        [{ b with status := BookingStatus.confirmed }] ∧
      (ingestStripeEvent noFail db ⟨true, .paymentIntentSucceeded, piId⟩).2 =
        .ok)
    ∧
    (∀ (db : DB) (userId bookingId : Nat) (b : Booking),
      (db.bookings.filter (fun x => x.id == bookingId)).filter
          (fun x => x.guestId == userId) = [b] →
      b.status = .confirmed →
      cancelBookingRoute noFail db userId bookingId = (db, .invalidStatus)) := by
  constructor
  · intro db piId b hf hnd _hst
    have hmem : b ∈ db.bookings := mem_of_filter_eq_singleton hf
    have hupd := updateBookingStatus_ok noFail db b .confirmed rfl hmem hnd
    have hhandler : handlePaymentIntentSucceeded noFail db piId =
        (awardLoyaltyPoints noFail
          (createHostPayout noFail
            { db with bookings := setStatusKeyed db b.id .confirmed } b)
          b.guestId b.id .booking, false) := by
      unfold handlePaymentIntentSucceeded
      rw [hf]
      simp only [single]
      rw [hupd]
    have hingest : ingestStripeEvent noFail db
        ⟨true, .paymentIntentSucceeded, piId⟩ =
        ((handlePaymentIntentSucceeded noFail db piId).1,
         if (handlePaymentIntentSucceeded noFail db piId).2 then .serverError
         else .ok) := rfl
    rw [hingest, hhandler]
    constructor
    · simp only [awardLoyaltyPoints_bookings, createHostPayout_bookings]
      show (setStatusKeyed db b.id .confirmed).filter
          (fun x => x.id == b.id) = [{ b with status := .confirmed }]
      unfold setStatusKeyed
      exact filter_map_update db.bookings
        (fun x => { x with status := .confirmed }) (fun _ => rfl) b hmem hnd
    · simp
  · intro db userId bookingId b hf hst
    unfold cancelBookingRoute
    rw [hf]
    simp only [single]
    rw [hst]
    rfl

/-- C2, witness: the amended statement applied to the concrete scenario —
a cancelled booking flipped to `confirmed` by a success event, and a
guest-cancel attempt on a confirmed booking rejected with the conflict
error. -/
theorem c2_witness :
    ((ingestStripeEvent noFail (demoDB .cancelled [] [] 0)
        ⟨true, .paymentIntentSucceeded, 500⟩).1.bookings.filter
        (fun x => x.id == (demoBooking .cancelled).id) =
      [{ demoBooking .cancelled with status := BookingStatus.confirmed }] ∧
     (ingestStripeEvent noFail (demoDB .cancelled [] [] 0)
        ⟨true, .paymentIntentSucceeded, 500⟩).2 = .ok) ∧
    cancelBookingRoute noFail (demoDB .confirmed [] [] 0) 20 1 =
      (demoDB .confirmed [] [] 0, .invalidStatus) := by
  constructor
  · exact c2_amended.1 (demoDB .cancelled [] [] 0) 500 (demoBooking .cancelled)
      rfl (by simp [demoDB, demoBooking, mkBookingRow]) rfl
  · exact c2_amended.2 (demoDB .confirmed [] [] 0) 20 1
      (demoBooking .confirmed) rfl rfl

/-!
## Claim C5 — acknowledgment despite side-effect failure
-/

/-- The success handler never throws when the status write succeeds: the
payout and loyalty failure paths are swallowed inside their helpers. -/
lemma handleSucceeded_no_throw (o : Oracle) (db : DB) (piId : Nat)
    (ho : o.updateBookingStatusFails = false)
    (hnd : (db.bookings.map (fun x => x.id)).Nodup) :
    (handlePaymentIntentSucceeded o db piId).2 = false := by
  unfold handlePaymentIntentSucceeded
  cases hs : single (db.bookings.filter
      (fun b => b.stripePaymentIntentId == piId)) with
  | none => rfl
  | some b =>
    have hf : db.bookings.filter (fun x => x.stripePaymentIntentId == piId)
        = [b] := (single_eq_some_iff _ _).mp hs
    have hmem : b ∈ db.bookings := mem_of_filter_eq_singleton hf
    simp [updateBookingStatus_ok o db b .confirmed ho hmem hnd]

/-- The failed-payment handler never throws when the status write
succeeds. -/
lemma handleFailed_no_throw (o : Oracle) (db : DB) (piId : Nat)
    (ho : o.updateBookingStatusFails = false)
    (hnd : (db.bookings.map (fun x => x.id)).Nodup) :
    (handlePaymentIntentFailed o db piId).2 = false := by
  unfold handlePaymentIntentFailed
  cases hs : single (db.bookings.filter
      (fun b => b.stripePaymentIntentId == piId)) with
  | none => rfl
  | some b =>
    have hf : db.bookings.filter (fun x => x.stripePaymentIntentId == piId)
        = [b] := (single_eq_some_iff _ _).mp hs
    have hmem : b ∈ db.bookings := mem_of_filter_eq_singleton hf
    simp [updateBookingStatus_ok o db b .cancelled ho hmem hnd]

/-- The canceled-payment handler never throws when the status write
succeeds. -/
lemma handleCanceled_no_throw (o : Oracle) (db : DB) (piId : Nat)
    (ho : o.updateBookingStatusFails = false)
    (hnd : (db.bookings.map (fun x => x.id)).Nodup) :
    (handlePaymentIntentCanceled o db piId).2 = false := by
  unfold handlePaymentIntentCanceled
  cases hs : single (db.bookings.filter
      (fun b => b.stripePaymentIntentId == piId)) with
  | none => rfl
  | some b =>
    have hf : db.bookings.filter (fun x => x.stripePaymentIntentId == piId)
        = [b] := (single_eq_some_iff _ _).mp hs
    have hmem : b ∈ db.bookings := mem_of_filter_eq_singleton hf
    simp [updateBookingStatus_ok o db b .cancelled ho hmem hnd]

/-- The oracle under which the booking-status write fails. -/
def failUpdate : Oracle := ⟨true, false, false, false⟩

/-- C5, counterexample.  A correctly signed success event whose booking
status write fails is answered with a server error, not a success
acknowledgment: nothing is ever recorded as processed, and the failure is
surfaced to the gateway (`handlePaymentIntentSucceeded` re-throws and the
route forwards the exception to `next(error)`). -/
theorem c5_failure_surfaced_counterexample :
    evSucc.sigValid = true ∧
    (ingestStripeEvent failUpdate (demoDB .pending [] [] 0) evSucc).2 =
      .serverError := ⟨rfl, rfl⟩

/-- C5, amended.  There is no processed-event record at all.  A failure of
payout creation, loyalty insertion or the user-counter update is swallowed
and the endpoint still acknowledges success, for every event type; but a
failure of the booking status update propagates to the gateway as a server
error (the counterexample), so only the non-status side effects are
shielded. -/
theorem c5_amended :
    ∀ (o : Oracle) (db : DB) (ev : Event),
      ev.sigValid = true → o.updateBookingStatusFails = false →
      (db.bookings.map (fun x => x.id)).Nodup →
      (ingestStripeEvent o db ev).2 = .ok := by
  intro o db ev hsig ho hnd
  unfold ingestStripeEvent
  rw [hsig]
  cases htype : ev.type with
  | paymentIntentSucceeded =>
    simp [htype, handleSucceeded_no_throw o db ev.piId ho hnd]
  | paymentIntentFailed =>
    simp [htype, handleFailed_no_throw o db ev.piId ho hnd]
  | paymentIntentCanceled =>
    simp [htype, handleCanceled_no_throw o db ev.piId ho hnd]
  | other => simp [htype]

/-- C5, witness: the amended statement applied to the scenario with an
oracle that fails the payout and loyalty inserts — the endpoint still
answers success. -/
theorem c5_witness :
    (ingestStripeEvent ⟨false, true, true, true⟩ (demoDB .pending [] [] 0)
      evSucc).2 = .ok :=
  c5_amended ⟨false, true, true, true⟩ (demoDB .pending [] [] 0) evSucc rfl
    rfl (by simp [demoDB, demoBooking, mkBookingRow])

/-!
## Claim C10 — events matching no booking are no-ops
-/

/-- C10.  Any correctly signed event whose payment-intent id matches no
booking row leaves the database exactly as it was — bookings, payouts,
loyalty transactions and users — and is still acknowledged with success,
for every event type and every storage oracle. -/
theorem c10_unmatched_event_noop :
    ∀ (o : Oracle) (db : DB) (ev : Event),
      ev.sigValid = true →
      db.bookings.filter (fun b => b.stripePaymentIntentId == ev.piId) = [] →
      ingestStripeEvent o db ev = (db, .ok) := by
  intro o db ev hsig hf
  unfold ingestStripeEvent
  rw [hsig]
  cases htype : ev.type <;>
    simp [htype, handlePaymentIntentSucceeded, handlePaymentIntentFailed,
      handlePaymentIntentCanceled, hf, single]

/-- An event referencing a payment intent unknown to the scenario. -/
def evNoMatch : Event := ⟨true, .paymentIntentSucceeded, 999⟩

/-- C10, witness: the unmatched-event theorem applied to the scenario
database and a stray payment-intent id. -/
theorem c10_witness :
    ingestStripeEvent noFail (demoDB .pending [] [] 0) evNoMatch =
      (demoDB .pending [] [] 0, .ok) :=
  c10_unmatched_event_noop noFail (demoDB .pending [] [] 0) evNoMatch rfl rfl

/-!
## Claim C3 — coupon usage cap under concurrency
-/

/-- Capping the 500-cent discount at the 10000-cent booking total. -/
lemma min_disc_c3 : min (500 : ℤ) 10000 = 500 := by norm_num

/-- Capping the 500000-cent discount at the 3000-cent booking total. -/
lemma min_disc_c6 : min (500000 : ℤ) 3000 = 3000 := by norm_num

/-- `Math.round(5 * 100) = 500`: the cent conversion of a fixed discount
of 5 currency units. -/
lemma jsRound_disc5 : jsRound ((5 : ℚ) * 100) = 500 := by
  unfold jsRound
  norm_num

/-- `Math.round(5000 * 100) = 500000`: the cent conversion of a fixed
discount of 5000 currency units. -/
lemma jsRound_disc5000 : jsRound ((5000 : ℚ) * 100) = 500000 := by
  unfold jsRound
  norm_num

/-- A coupon with a global cap of one use: active, fixed discount 5
(currency units, converted to 500 cents by the route), no minimum. -/
def c3Coupon : Coupon :=
  { id := 1, code := 7, isActive := true, validFrom := 0, validUntil := 100,
    couponType := .fixed, discountValue := 5, maxUses := 1, totalUses := 0,
    totalDiscount := 0, minBookingValue := 0 }

/-- Pending booking of the first eligible user. -/
def c3Booking1 : CouponBooking := ⟨1, 11, .pending, 10000, 0, 0⟩

/-- Pending booking of the second eligible user. -/
def c3Booking2 : CouponBooking := ⟨2, 22, .pending, 10000, 0, 0⟩

/-- The coupon database for the two-user cap scenario. -/
def c3DB : CouponDB := ⟨[c3Coupon], [c3Booking1, c3Booking2], []⟩

/-- C3, counterexample.  Under the interleaving where both requests pass
the eligibility checks before either writes, both users redeem the
`maxUses = 1` coupon: two `Redemption` rows are inserted while `totalUses`
ends at `1` — the cap is exceeded and neither request is rejected. -/
theorem c3_concurrent_cap_counterexample :
    (applyTwoInterleaved 50 c3DB 11 1 22 2 7).2.1 = .applied 500 9500 ∧
    (applyTwoInterleaved 50 c3DB 11 1 22 2 7).2.2 = .applied 500 9500 ∧
    (applyTwoInterleaved 50 c3DB 11 1 22 2 7).1.redemptions.length = 2 ∧
    (applyTwoInterleaved 50 c3DB 11 1 22 2 7).1.coupons.map
      (fun c => c.totalUses) = [1] := by
  refine ⟨?_, ?_, ?_, ?_⟩
  · simp [applyTwoInterleaved, applyCoupon, couponApplyReads,
      couponApplyWrites, computeDiscount, single, c3DB, c3Coupon, c3Booking1,
      c3Booking2, jsRound_disc5, min_disc_c3]
  · simp [applyTwoInterleaved, applyCoupon, couponApplyReads,
      couponApplyWrites, computeDiscount, single, c3DB, c3Coupon, c3Booking1,
      c3Booking2, jsRound_disc5, min_disc_c3]
  · decide
  · decide

/-- C3, amended.  The check-then-insert-then-update sequence is not
atomic.  Run one after the other, the two requests behave as the claim
says: the first succeeds and the second receives `CouponExhaustedError`.
But under the read-read-write-write interleaving both succeed, two
redemption rows exist and `totalUses` ends at `1`, exceeding the cap. -/
theorem c3_cap_not_atomic :
    ((applyCoupon 50 c3DB 11 7 1).2 = .applied 500 9500 ∧
     (applyCoupon 50 (applyCoupon 50 c3DB 11 7 1).1 22 7 2).2 =
       .couponExhausted ∧
     (applyCoupon 50 (applyCoupon 50 c3DB 11 7 1).1 22 7 2).1.redemptions.length
       = 1) ∧
    ((applyTwoInterleaved 50 c3DB 11 1 22 2 7).2.1 = .applied 500 9500 ∧
     (applyTwoInterleaved 50 c3DB 11 1 22 2 7).2.2 = .applied 500 9500 ∧
     (applyTwoInterleaved 50 c3DB 11 1 22 2 7).1.redemptions.length = 2) := by
  refine ⟨⟨?_, ?_, ?_⟩, ?_, ?_, ?_⟩
  · simp [applyCoupon, couponApplyReads, couponApplyWrites, computeDiscount,
      single, c3DB, c3Coupon, c3Booking1, c3Booking2, jsRound_disc5, min_disc_c3]
  · decide
  · decide
  · simp [applyTwoInterleaved, applyCoupon, couponApplyReads,
      couponApplyWrites, computeDiscount, single, c3DB, c3Coupon, c3Booking1,
      c3Booking2, jsRound_disc5, min_disc_c3]
  · simp [applyTwoInterleaved, applyCoupon, couponApplyReads,
      couponApplyWrites, computeDiscount, single, c3DB, c3Coupon, c3Booking1,
      c3Booking2, jsRound_disc5, min_disc_c3]
  · decide

/-!
## Claim C6 — discount bounds
-/

/-- Nonnegative inputs round to a nonnegative value under JavaScript
`Math.round`. -/
lemma jsRound_nonneg (q : ℚ) (h : 0 ≤ q) : 0 ≤ jsRound q := by
  unfold jsRound
  have h2 : ((0 : ℤ) : ℚ) ≤ q + 1 / 2 := by push_cast; linarith
  exact Int.le_floor.mpr h2

/-- The fixed 5000-unit coupon of the spec example. -/
def c6Coupon : Coupon :=
  { id := 1, code := 7, isActive := true, validFrom := 0, validUntil := 100,
    couponType := .fixed, discountValue := 5000, maxUses := 0, totalUses := 0,
    totalDiscount := 0, minBookingValue := 0 }

/-- The 3000-cent booking of the spec example. -/
def c6Booking : CouponBooking := ⟨1, 11, .pending, 3000, 0, 0⟩

/-- The coupon database for the overdraw example. -/
def c6DB : CouponDB := ⟨[c6Coupon], [c6Booking], []⟩

/-- C6.  The computed discount is never negative and never exceeds the
booking's pre-discount subtotal, so the resulting total
`totalPriceInCents - discount` equals `max 0 (subtotal - discount)`; in
particular applying the fixed 5000-unit coupon to the 3000-cent booking
through the route succeeds with discount 3000 and new total 0, never a
negative total. -/
theorem c6_discount_bounds :
    (∀ (c : Coupon) (total : Nat),
      0 ≤ computeDiscount c total ∧
      computeDiscount c total ≤ (total : ℤ) ∧
      (total : ℤ) - computeDiscount c total =
        max 0 ((total : ℤ) - computeDiscount c total)) ∧
    (applyCoupon 50 c6DB 11 7 1).2 = .applied 3000 0 := by
  constructor
  · intro c total
    have hnn : 0 ≤ computeDiscount c total := by
      unfold computeDiscount
      cases hc : c.couponType <;> simp only
      · exact le_min (jsRound_nonneg _ (by positivity)) (by positivity)
      · exact le_min (jsRound_nonneg _ (by positivity)) (by positivity)
    have hle : computeDiscount c total ≤ (total : ℤ) := by
      unfold computeDiscount
      cases hc : c.couponType <;> exact min_le_right _ _
    refine ⟨hnn, hle, ?_⟩
    omega
  · simp [applyCoupon, couponApplyReads, couponApplyWrites, computeDiscount,
      single, c6DB, c6Coupon, c6Booking, jsRound_disc5000, min_disc_c6]

/-!
## Claim C7 — validation order and error codes
-/

/-- A coupon whose validity window has not started yet (`validFrom = 60`)
but which is active and unexpired. -/
def c7Coupon : Coupon :=
  { id := 1, code := 7, isActive := true, validFrom := 60, validUntil := 100,
    couponType := .fixed, discountValue := 5, maxUses := 0, totalUses := 0,
    totalDiscount := 0, minBookingValue := 0 }

/-- The coupon database for the not-yet-valid coupon. -/
def c7DB : CouponDB := ⟨[c7Coupon], [⟨1, 11, .pending, 10000, 0, 0⟩], []⟩

/-- C7, counterexample.  At `now = 50` the coupon is outside its validity
window (`validFrom = 60`), so the specification's first check fails and the
outcome should be the check-1 rejection; the route nevertheless applies the
coupon, because its query only filters on `isActive` and
`validUntil >= now` and never consults `validFrom`. -/
theorem c7_validity_window_counterexample :
    specApplyOutcome 50 c7DB 11 7 1 = .couponNotFound ∧
    (applyCoupon 50 c7DB 11 7 1).2 = .applied 500 9500 := by
  constructor
  · decide
  · simp [applyCoupon, couponApplyReads, couponApplyWrites, computeDiscount,
      single, c7DB, c7Coupon, jsRound_disc5, min_disc_c3]

/-- C7, amended.  With check (1) weakened to what the route implements —
coupon active and not expired, `validFrom` unchecked — the checks do run in
the stated order with the first failure deciding the outcome, each mapped
to its own error code: `NotFoundError` (coupon), `NotFoundError` (booking),
`CouponExhaustedError`, `DuplicateCouponError`, `MinimumValueError`. -/
theorem c7_order_amended :
    ∀ (now : Nat) (db : CouponDB) (userId code bookingId : Nat) (c : Coupon),
      db.coupons.filter (fun x => x.code == code) = [c] →
      (applyCoupon now db userId code bookingId).2 =
        codeApplyLadder now db c userId bookingId := by
  intro now db u code bid c hc
  unfold applyCoupon couponApplyReads codeApplyLadder
  rw [hc]
  by_cases hA : c.isActive
  · by_cases hU : now ≤ c.validUntil
    · simp [hA, hU, single]
      cases hb : List.filter
          (fun a => a.status == BookingStatus.pending &&
            (a.guestId == u && a.id == bid)) db.cbookings with
      | nil => rfl
      | cons b rest =>
        cases rest with
        | cons b2 rest2 => rfl
        | nil =>
          by_cases hcap : (¬ c.maxUses = 0 ∧ c.maxUses ≤ c.totalUses)
          · simp [hcap]
          · simp only [if_neg hcap]
            cases hr : List.filter
                (fun a => a.userId == u && a.couponId == c.id)
                db.redemptions with
            | nil =>
              by_cases hmin : (¬ c.minBookingValue = 0 ∧
                  b.totalPriceInCents < c.minBookingValue)
              · simp [hmin]
              · simp [hmin, couponApplyWrites]
            | cons r rest =>
              cases rest <;> rfl
    · have hcoupon : ([c].filter (fun x => x.isActive)).filter
          (fun x => decide (now ≤ x.validUntil)) = [] := by
        simp [hU]
      rw [hcoupon]
      have hnot : (!(c.isActive && decide (now ≤ c.validUntil))) = true := by
        simp [hU]
      rw [hnot]
      rfl
  · have hcoupon : ([c].filter (fun x => x.isActive)).filter
        (fun x => decide (now ≤ x.validUntil)) = [] := by
      simp [hA]
    rw [hcoupon]
    have hnot : (!(c.isActive && decide (now ≤ c.validUntil))) = true := by
      simp [hA]
    rw [hnot]
    rfl

/-- C7, witness: the amended ladder equality applied to the concrete
overdraw database, whose coupon table holds exactly one row with the
requested code. -/
theorem c7_witness :
    (applyCoupon 50 c6DB 11 7 1).2 = codeApplyLadder 50 c6DB c6Coupon 11 1 :=
  c7_order_amended 50 c6DB 11 7 1 c6Coupon rfl

/-!
## Claim C8 — loyalty balance as ledger sum
-/

/-- Folding the per-row balance contribution equals summing it. -/
lemma foldl_balance_eq_sum (f : LoyaltyTxn → ℤ) :
    ∀ (l : List LoyaltyTxn) (c : ℤ),
      l.foldl (fun sum t => sum + f t) c = c + (l.map f).sum := by
  intro l
  induction l with
  | nil => intro c; simp
  | cons x xs ih =>
    intro c
    simp only [List.foldl_cons, List.map_cons, List.sum_cons, ih]
    ring

/-- A user with eleven ledger entries of 10 points each: the route reports
100 (the ten most recent rows) while the full ledger sums to 110. -/
def c8DB : DB :=
  demoDB .pending [] (List.replicate 11 ⟨20, 10, 0, 1, .booking⟩) 0

/-- C8, counterexample.  The reported balance is not the running sum over
the user's entire ledger: `GET /api/users/loyalty` reduces over
`.limit(10)` rows only, so with eleven transactions the report is 100, not
110. -/
theorem c8_balance_counterexample :
    getLoyaltyTotal c8DB 20 = 100 ∧ ledgerBalance c8DB 20 = 110 ∧
    getLoyaltyTotal c8DB 20 ≠ ledgerBalance c8DB 20 := by
  refine ⟨by decide, by decide, by decide⟩

/-- C8, amended.  The reported balance is the sum of
`jewels_earned - jewels_redeemed` over only the user's ten most recent
ledger rows — it agrees with the full ledger sum exactly while the user has
at most ten transactions — and, in addition, every booking accrual mutates
the separate `users.luxe_jewels` counter (by the accrued points), contrary
to the derive-only design. -/
theorem c8_amended :
    (∀ (db : DB) (userId : Nat),
        (db.loyalty.filter (fun t => t.userId == userId)).length ≤ 10 →
        getLoyaltyTotal db userId = ledgerBalance db userId) ∧
    (∀ (st : BookingStatus) (ps : List Payout) (ls : List LoyaltyTxn)
        (j : ℤ),
        (ingestStripeEvent noFail (demoDB st ps ls j) evSucc).1.users =
          [⟨20, j + demoPoints⟩]) := by
  constructor
  · intro db userId hlen
    unfold getLoyaltyTotal ledgerBalance
    have h1 : (db.loyalty.filter (fun t => t.userId == userId)).reverse.take 10
        = (db.loyalty.filter (fun t => t.userId == userId)).reverse := by
      apply List.take_of_length_le
      simpa using hlen
    rw [h1, foldl_balance_eq_sum]
    simp [List.map_reverse, List.sum_reverse]
  · intro st ps ls j
    rw [ingest_demo_step]
    rfl

/-- C8, witness: with a single ledger row the reported balance and the
full ledger sum agree, through the amended statement. -/
theorem c8_witness :
    getLoyaltyTotal (demoDB .pending [] [⟨20, 5, 0, 1, .booking⟩] 0) 20 =
      ledgerBalance (demoDB .pending [] [⟨20, 5, 0, 1, .booking⟩] 0) 20 :=
  c8_amended.1 (demoDB .pending [] [⟨20, 5, 0, 1, .booking⟩] 0) 20 (by decide)

/-!
## Claim C4 — availability predicate
-/

/-- C4.  `checkPropertyAvailability` never computes the half-open overlap
predicate: the `overlaps` filter does not exist for the scalar `date`
column, so the query errors and the helper throws for every database and
every input; in particular for the scenario database — where the spec-side
predicate reports the property occupied (a confirmed booking overlaps
[100, 200)) — the helper yields an error rather than `false`. -/
theorem c4_availability_always_errors :
    (∀ (db : DB) (propertyId checkInMs checkOutMs : Nat),
        checkPropertyAvailability db propertyId checkInMs checkOutMs =
          Except.error QueryErr.opDoesNotExist) ∧
    specIsAvailable (demoDB .confirmed [] [] 0) 10 100 200 = false ∧
    checkPropertyAvailability (demoDB .confirmed [] [] 0) 10 100 200 ≠
      Except.ok false := by
  refine ⟨fun db pid ci co => rfl, by decide, ?_⟩
  have herr : checkPropertyAvailability (demoDB .confirmed [] [] 0) 10 100 200
      = Except.error QueryErr.opDoesNotExist := rfl
  rw [herr]
  simp

end Luxe
